import Mathlib

/-
  Verification of the GoDaddy domain-availability checker
  (src/domain_checker.py and src/app.py).

  The classifier, the per-query checker, the batch loops and the CSV
  serializer are embedded as executable Lean functions.  Python substring
  containment (the `in` operator) is modelled by an explicit scan over the
  character lists of the strings involved; the Selenium page is modelled by
  a PageSnapshot carrying the lowercased page source, the list of elements
  returned by the stage-2 XPath query (each with its optionally resolved
  ancestor text and its own text, both lowercased), and a flag recording
  whether the stage-2 element/ancestor lookup raises.  A fetch is a function
  from the full domain string to either a PageSnapshot or an error message,
  so a single embedding covers both the success and the fetch-failure paths
  of check_domain_availability.
-/

namespace GodaddyChecker

/-- Does the character list `h` start with the character list `n`? -/
def beginsWith : List Char → List Char → Bool
  | [], _ => true
  | _ :: _, [] => false
  | n :: ns, c :: cs => n == c && beginsWith ns cs

/-- Does `n` occur as a contiguous run inside `h`?  Scans every position of
`h`, exactly the semantics of Python's `n in h` on strings. -/
def occursIn (n : List Char) : List Char → Bool
  | [] => beginsWith n []
  | c :: cs => beginsWith n (c :: cs) || occursIn n cs

/-- Python's `needle in hay` on strings (substring containment). -/
def inStr (needle hay : String) : Bool :=
  occursIn needle.data hay.data

/-- The taken-indicator list of domain_checker.py lines 42-48
(identical in app.py lines 90-96). -/
def taken_indicators : List String :=
  ["is taken", "domain taken", "already taken", "unavailable", "not available"]

/-- The available-indicator list of domain_checker.py lines 51-56
(identical in app.py lines 99-104). -/
def available_indicators : List String :=
  ["add to cart", "buy now", "add to bag", "purchase"]

/-- Python's `any(ind in text for ind in inds)`. -/
def anyIndicator (inds : List String) (text : String) : Bool :=
  inds.any (fun ind => inStr ind text)

/-- One element returned by the stage-2 XPath query of
check_domain_availability: `ancestorText` is `parent.text.lower()` when the
ancestor lookup of domain_checker.py line 79 succeeds, and `none` when it
raises NoSuchElementException; `elementText` is `element.text.lower()`. -/
structure Element where
  ancestorText : Option String
  elementText : String
deriving DecidableEq, Repr

/-- The text that the stage-2 loop inspects for a given element: the
ancestor's text when the ancestor resolves, otherwise the element's own
text (domain_checker.py lines 79-100). -/
def inspectedText (e : Element) : String :=
  match e.ancestorText with
  | some p => p
  | none => e.elementText

/-- The page as seen by the classification code of
check_domain_availability: `lowerText` is `driver.page_source.lower()`;
`domainElements` is the list returned by the `find_elements` XPath query of
domain_checker.py lines 70-73; `lookupRaises` records whether the stage-2
element/ancestor lookup raises an exception (caught at line 113). -/
structure PageSnapshot where
  lowerText : String
  domainElements : List Element
  lookupRaises : Bool
deriving DecidableEq, Repr

/-- The pair of mutable locals `(is_available, status)` of
check_domain_availability; `is_available` is `none` for Python `None`. -/
structure ClassificationOutcome where
  is_available : Option Bool
  status : String
deriving DecidableEq, Repr

/-- The spec's tri-state availability verdict. -/
inductive Availability
  | Available
  | Taken
  | Unknown
deriving DecidableEq, Repr

/-- The verdict denoted by the `is_available` local. -/
def availabilityOf : Option Bool → Availability
  | some true => Availability.Available
  | some false => Availability.Taken
  | none => Availability.Unknown

/-- The stage-2 per-element loop of domain_checker.py lines 77-100
(app.py lines 123-145): for each element, inspect the ancestor text when it
resolves and the element's own text otherwise; the available-indicator
check comes first, then the taken-indicator check, else the loop moves to
the next element.  Returns the `(is_available, status)` assignment made by
the first classifying element, or `none` when no element classifies. -/
def scanElements : List Element → Option (Bool × String)
  | [] => none
  | e :: rest =>
    if anyIndicator available_indicators (inspectedText e) then some (true, "Available")
    else if anyIndicator taken_indicators (inspectedText e) then some (false, "Taken")
    else scanElements rest

/-- The classification stages of check_domain_availability
(domain_checker.py lines 37-120, identical in app.py lines 85-164):
stage 1 scans `lowerText` for taken indicators; when it finds none, either
the stage-2 element/ancestor lookup raises and the handler of lines 113-120
runs a coarse text fallback, or stage 2 scans the queried elements and
stage 3 (lines 102-111) runs the whole-page fallback when stage 2 was
inconclusive. -/
def classify (snap : PageSnapshot) (full_domain : String) : ClassificationOutcome :=
  if anyIndicator taken_indicators snap.lowerText then
    ⟨some false, "Taken"⟩
  else if snap.lookupRaises then
    if anyIndicator available_indicators snap.lowerText then ⟨some true, "Available"⟩
    else if anyIndicator taken_indicators snap.lowerText then ⟨some false, "Taken"⟩
    else ⟨none, "Unknown"⟩
  else
    match scanElements snap.domainElements with
    | some (b, st) => ⟨some b, st⟩
    | none =>
      if anyIndicator available_indicators snap.lowerText then
        if inStr full_domain snap.lowerText then ⟨some true, "Available"⟩
        else ⟨none, "Unknown"⟩
      else if inStr "domain taken" snap.lowerText
          || inStr (full_domain ++ " is taken") snap.lowerText then
        ⟨some false, "Taken"⟩
      else ⟨none, "Unknown"⟩

/-- One output record of check_domain_availability; the fields carry the
dict keys "Domain Name", "Extension", "Full Domain", "Available",
"Status". -/
structure ResultRecord where
  domainName : String
  extension : String
  fullDomain : String
  available : String
  status : String
deriving DecidableEq, Repr

/-- The "Available" field expression of domain_checker.py line 126:
`"Yes" if is_available else "No" if is_available is False else "Unknown"`. -/
def availableField : Option Bool → String
  | some true => "Yes"
  | some false => "No"
  | none => "Unknown"

/-- check_domain_availability of domain_checker.py lines 18-137: a failing
fetch (an exception from the navigation step) reaches the outer handler of
lines 130-137, which synthesizes an error record with the untruncated
message; a successful fetch yields a PageSnapshot that the classification
stages turn into a normal record (lines 122-128). -/
def check_domain_availability (fetch : String → Except String PageSnapshot)
    (domain_name extension : String) : ResultRecord :=
  let full_domain := domain_name ++ extension
  match fetch full_domain with
  | Except.ok snap =>
    let o := classify snap full_domain
    ⟨domain_name, extension, full_domain, availableField o.is_available, o.status⟩
  | Except.error e =>
    ⟨domain_name, extension, full_domain, "Unknown", "Error: " ++ e⟩

/-- check_domain_availability of app.py lines 72-181: identical to the CLI
variant except that the error status truncates the message to its first 50
characters (`str(e)[:50]`, line 180). -/
def check_domain_availability_app (fetch : String → Except String PageSnapshot)
    (domain_name extension : String) : ResultRecord :=
  let full_domain := domain_name ++ extension
  match fetch full_domain with
  | Except.ok snap =>
    let o := classify snap full_domain
    ⟨domain_name, extension, full_domain, availableField o.is_available, o.status⟩
  | Except.error e =>
    ⟨domain_name, extension, full_domain, "Unknown", "Error: " ++ e.take 50⟩

/-- The nested query loop of check_domains (domain_checker.py lines
162-174): the outer loop walks the base names, normalizes each with
`strip().lower()`, skips the empty ones, and the inner loop appends one
record per extension. -/
def checkDomainsLoop (fetch : String → Except String PageSnapshot) :
    List String → List String → List ResultRecord
  | [], _ => []
  | name :: rest, extensions =>
    let domain_name := name.trim.toLower
    (if domain_name = "" then []
     else extensions.map (fun ext => check_domain_availability fetch domain_name ext))
      ++ checkDomainsLoop fetch rest extensions

/-- check_domains of domain_checker.py lines 139-184: when the WebDriver
constructor succeeds (`driverOk = true`) the query loop runs to completion
(no query can raise: check_domain_availability catches everything); when it
raises, the handler of lines 176-179 reports the setup failure and the
accumulated `results` list is still the initial empty list. -/
def check_domains (fetch : String → Except String PageSnapshot) (driverOk : Bool)
    (domain_names extensions : List String) : List ResultRecord :=
  if driverOk then checkDomainsLoop fetch domain_names extensions else []

/-- The query loop of app.py main, lines 287-303: the names were already
normalized at parse time, so the loop only skips empty entries. -/
def appCheckLoop (fetch : String → Except String PageSnapshot) :
    List String → List String → List ResultRecord
  | [], _ => []
  | domain_name :: rest, extensions =>
    (if domain_name = "" then []
     else extensions.map (fun ext => check_domain_availability_app fetch domain_name ext))
      ++ appCheckLoop fetch rest extensions

/-- The CSV header of save_to_csv (domain_checker.py line 192). -/
def fieldnames : List String :=
  ["Domain Name", "Extension", "Full Domain", "Available", "Status"]

/-- One CSV data row of save_to_csv. -/
def csvRow (r : ResultRecord) : List String :=
  [r.domainName, r.extension, r.fullDomain, r.available, r.status]

/-- save_to_csv of domain_checker.py lines 186-199: with an empty result
list it prints "No results to save." and returns before opening the file
(`none`: no file is written); otherwise it writes the header row followed
by one row per record. -/
def save_to_csv (results : List ResultRecord) : Option (List (List String)) :=
  if results.isEmpty then none
  else some (fieldnames :: results.map csvRow)

/-- Modelled from the spec: the normalized base-name list of the Batch
Orchestrator contract, "Normalizes each baseName (trim, lowercase) and
drops empty entries before building the cross-product; preserves input
order otherwise".  Used to compare the loop of check_domains against the
spec's description. -/
def normalizedBaseNames (names : List String) : List String :=
  (names.map (fun s => s.trim.toLower)).filter (fun s => s != "")

/-- The status string determined by an `is_available` value on the
non-error path of check_domain_availability. -/
def statusFor : Option Bool → String
  | some true => "Available"
  | some false => "Taken"
  | none => "Unknown"

/-- Modelled from the spec: the domain-major, extension-minor traversal of
the cross-product of an already-normalized base-name list with the
extension list, one record per pair ("Iterates baseNames as the outer loop
and extensions as the inner loop").  Compared against the loop of
check_domains, which normalizes inside the loop instead. -/
def crossProductResults (fetch : String → Except String PageSnapshot) :
    List String → List String → List ResultRecord
  | [], _ => []
  | n :: rest, exts =>
    exts.map (fun ext => check_domain_availability fetch n ext)
      ++ crossProductResults fetch rest exts

/-- A fetch that always fails, used to exercise the fetch-failure path. -/
def fetchErrW : String → Except String PageSnapshot :=
  fun _ => Except.error "timeout: navigation failed"

/-- A snapshot whose page text carries an available indicator and the
domain foo.com, used to exercise the success path. -/
def snapOkW : PageSnapshot :=
  ⟨"add to cart foo.com", [], false⟩

/-- A fetch that always succeeds with `snapOkW`. -/
def fetchOkW : String → Except String PageSnapshot :=
  fun _ => Except.ok snapOkW

/-! Auxiliary lemmas about the substring scan. -/

theorem beginsWith_iff (n : List Char) : ∀ h : List Char,
    beginsWith n h = true ↔ ∃ t, h = n ++ t := by
  induction n with
  | nil =>
    intro h
    simp only [beginsWith, List.nil_append, true_iff]
    exact ⟨h, rfl⟩
  | cons a ns ih =>
    intro h
    cases h with
    | nil =>
      constructor
      · intro hb
        exact absurd hb (by simp [beginsWith])
      · rintro ⟨t, ht⟩
        exact List.noConfusion ht
    | cons c cs =>
      simp only [beginsWith, Bool.and_eq_true, beq_iff_eq, ih, List.cons_append,
        List.cons.injEq]
      constructor
      · rintro ⟨rfl, t, rfl⟩
        exact ⟨t, rfl, rfl⟩
      · rintro ⟨t, rfl, rfl⟩
        exact ⟨rfl, t, rfl⟩

theorem occursIn_iff (n : List Char) : ∀ h : List Char,
    occursIn n h = true ↔ ∃ p t, h = p ++ (n ++ t) := by
  intro h
  induction h with
  | nil =>
    simp only [occursIn, beginsWith_iff]
    constructor
    · rintro ⟨t, ht⟩
      exact ⟨[], t, ht⟩
    · rintro ⟨p, t, ht⟩
      rcases List.append_eq_nil.mp ht.symm with ⟨rfl, h2⟩
      exact ⟨t, by simpa using ht⟩
  | cons c cs ih =>
    simp only [occursIn, Bool.or_eq_true, beginsWith_iff, ih]
    constructor
    · rintro (⟨t, ht⟩ | ⟨p, t, ht⟩)
      · exact ⟨[], t, by simpa using ht⟩
      · exact ⟨c :: p, t, by simp [ht]⟩
    · rintro ⟨p, t, ht⟩
      cases p with
      | nil =>
        exact Or.inl ⟨t, by simpa using ht⟩
      | cons a p2 =>
        simp only [List.cons_append] at ht
        injection ht with h1 h2
        exact Or.inr ⟨p2, t, h2⟩

theorem occursIn_trans {a b c : List Char} (h1 : occursIn a b = true)
    (h2 : occursIn b c = true) : occursIn a c = true := by
  rcases (occursIn_iff b c).mp h2 with ⟨q, s, rfl⟩
  rcases (occursIn_iff a b).mp h1 with ⟨p, t, rfl⟩
  exact (occursIn_iff ..).mpr ⟨q ++ p, t ++ s, by simp⟩

theorem inStr_trans {a b c : String} (h1 : inStr a b = true)
    (h2 : inStr b c = true) : inStr a c = true :=
  occursIn_trans h1 h2

/-- The phrase appended after a domain in the stage-3 fallback always
contains the first taken indicator as a substring. -/
theorem inStr_isTaken_append (fd : String) :
    inStr "is taken" (fd ++ " is taken") = true := by
  unfold inStr
  apply (occursIn_iff ..).mpr
  refine ⟨fd.data ++ [' '], [], ?_⟩
  show fd.data ++ (" is taken").data = _
  simp

theorem anyIndicator_iff {inds : List String} {t : String} :
    anyIndicator inds t = true ↔ ∃ ind ∈ inds, inStr ind t = true := by
  simp [anyIndicator]

theorem anyIndicator_false {inds : List String} {t : String}
    (h : anyIndicator inds t = false) : ∀ ind ∈ inds, inStr ind t = false := by
  intro ind hm
  by_contra hc
  rw [Bool.not_eq_false] at hc
  rw [anyIndicator_iff.mpr ⟨ind, hm, hc⟩] at h
  exact Bool.noConfusion h

/-- When the stage-1 scan finds no taken indicator, the taken condition of
the stage-3 whole-page fallback is false as well. -/
theorem stage3_taken_false {s : String} (fd : String)
    (h : anyIndicator taken_indicators s = false) :
    (inStr "domain taken" s || inStr (fd ++ " is taken") s) = false := by
  have h1 : inStr "domain taken" s = false :=
    anyIndicator_false h "domain taken" (by decide)
  have h2 : inStr "is taken" s = false :=
    anyIndicator_false h "is taken" (by decide)
  have h3 : inStr (fd ++ " is taken") s = false := by
    by_contra hc
    rw [Bool.not_eq_false] at hc
    rw [inStr_trans (inStr_isTaken_append fd) hc] at h2
    exact Bool.noConfusion h2
  rw [h1, h3]
  rfl

/-! Structure lemmas about the stage-2 scan and the classifier. -/

/-- A classifying element always assigns one of the two verdict pairs. -/
theorem scanElements_shape : ∀ {es : List Element} {r : Bool × String},
    scanElements es = some r → r = (true, "Available") ∨ r = (false, "Taken") := by
  intro es
  induction es with
  | nil =>
    intro r h
    exact Option.noConfusion h
  | cons e rest ih =>
    intro r h
    unfold scanElements at h
    by_cases ha : anyIndicator available_indicators (inspectedText e) = true
    · rw [if_pos ha] at h
      exact Or.inl (Option.some.injEq .. ▸ h.symm ▸ rfl)
    · rw [if_neg ha] at h
      by_cases ht : anyIndicator taken_indicators (inspectedText e) = true
      · rw [if_pos ht] at h
        exact Or.inr (Option.some.injEq .. ▸ h.symm ▸ rfl)
      · rw [if_neg ht] at h
        exact ih h

/-- When no queried element's inspected text holds any indicator, the
stage-2 loop classifies nothing. -/
theorem scanElements_none {es : List Element}
    (h : ∀ e ∈ es, anyIndicator available_indicators (inspectedText e) = false
        ∧ anyIndicator taken_indicators (inspectedText e) = false) :
    scanElements es = none := by
  induction es with
  | nil => rfl
  | cons e rest ih =>
    have he := h e (List.mem_cons_self e rest)
    unfold scanElements
    rw [if_neg (by rw [he.1]; exact Bool.noConfusion),
      if_neg (by rw [he.2]; exact Bool.noConfusion)]
    exact ih (fun x hx => h x (List.mem_cons_of_mem e hx))

/-- When every inspected text is either taken-indicator-free or carries an
available indicator, the stage-2 loop can only classify Available. -/
theorem scanElements_no_taken {es : List Element}
    (h : ∀ e ∈ es, anyIndicator taken_indicators (inspectedText e) = false
        ∨ anyIndicator available_indicators (inspectedText e) = true) :
    scanElements es = none ∨ scanElements es = some (true, "Available") := by
  induction es with
  | nil => exact Or.inl rfl
  | cons e rest ih =>
    unfold scanElements
    by_cases ha : anyIndicator available_indicators (inspectedText e) = true
    · rw [if_pos ha]
      exact Or.inr rfl
    · rw [if_neg ha]
      have ht : anyIndicator taken_indicators (inspectedText e) = false := by
        rcases h e (List.mem_cons_self e rest) with h1 | h1
        · exact h1
        · exact absurd h1 ha
      rw [if_neg (by rw [ht]; exact Bool.noConfusion)]
      exact ih (fun x hx => h x (List.mem_cons_of_mem e hx))

/-- Every classification outcome is one of exactly three value pairs; in
particular the status string always agrees with the verdict. -/
theorem classify_cases (snap : PageSnapshot) (fd : String) :
    classify snap fd = ⟨some true, "Available"⟩
      ∨ classify snap fd = ⟨some false, "Taken"⟩
      ∨ classify snap fd = ⟨none, "Unknown"⟩ := by
  unfold classify
  split
  · exact Or.inr (Or.inl rfl)
  · split
    · split
      · exact Or.inl rfl
      · exact Or.inr (Or.inr rfl)
    · cases hscan : scanElements snap.domainElements with
      | none =>
        simp only [hscan]
        split
        · split
          · exact Or.inl rfl
          · exact Or.inr (Or.inr rfl)
        · split
          · exact Or.inr (Or.inl rfl)
          · exact Or.inr (Or.inr rfl)
      | some r =>
        obtain ⟨b, st⟩ := r
        simp only [hscan]
        rcases scanElements_shape hscan with h | h
        · injection h with hb hst
          rw [hb, hst]
          exact Or.inl rfl
        · injection h with hb hst
          rw [hb, hst]
          exact Or.inr (Or.inl rfl)

/-- The status string of a classification is determined by its verdict. -/
theorem classify_status (snap : PageSnapshot) (fd : String) :
    (classify snap fd).status = statusFor (classify snap fd).is_available := by
  rcases classify_cases snap fd with h | h | h <;> rw [h] <;> rfl

/-- Every record the per-query checker can produce carries one of the three
"Available" strings (both the success and the fetch-failure paths). -/
theorem record_available_cases (fetch : String → Except String PageSnapshot)
    (domain_name extension : String) :
    (check_domain_availability fetch domain_name extension).available = "Yes"
      ∨ (check_domain_availability fetch domain_name extension).available = "No"
      ∨ (check_domain_availability fetch domain_name extension).available = "Unknown" := by
  simp only [check_domain_availability]
  cases hf : fetch (domain_name ++ extension) with
  | error e =>
    exact Or.inr (Or.inr rfl)
  | ok snap =>
    show availableField (classify snap (domain_name ++ extension)).is_available = "Yes"
        ∨ availableField (classify snap (domain_name ++ extension)).is_available = "No"
        ∨ availableField (classify snap (domain_name ++ extension)).is_available = "Unknown"
    rcases classify_cases snap (domain_name ++ extension) with h | h | h <;> rw [h]
    · exact Or.inl rfl
    · exact Or.inr (Or.inl rfl)
    · exact Or.inr (Or.inr rfl)

/-- Every record appended by the query loop of check_domains comes from
check_domain_availability. -/
theorem checkDomainsLoop_mem (fetch : String → Except String PageSnapshot) :
    ∀ (names extensions : List String) (r : ResultRecord),
      r ∈ checkDomainsLoop fetch names extensions →
      ∃ dn ext, r = check_domain_availability fetch dn ext := by
  intro names
  induction names with
  | nil =>
    intro extensions r h
    exact absurd h (List.not_mem_nil r)
  | cons name rest ih =>
    intro extensions r h
    unfold checkDomainsLoop at h
    rcases List.mem_append.mp h with h1 | h1
    · by_cases hn : name.trim.toLower = ""
      · rw [if_pos hn] at h1
        exact absurd h1 (List.not_mem_nil r)
      · rw [if_neg hn] at h1
        rcases List.mem_map.mp h1 with ⟨ext, _, he⟩
        exact ⟨name.trim.toLower, ext, he.symm⟩
    · exact ih extensions r h1

/-- A list whose records all carry one of the three "Available" strings is
partitioned by the three corresponding counts. -/
theorem count_partition : ∀ l : List ResultRecord,
    (∀ r ∈ l, r.available = "Yes" ∨ r.available = "No" ∨ r.available = "Unknown") →
    l.countP (fun r => r.available == "Yes") + l.countP (fun r => r.available == "No")
      + l.countP (fun r => r.available == "Unknown") = l.length := by
  intro l
  induction l with
  | nil =>
    intro _
    rfl
  | cons r t ih =>
    intro h
    have ht := ih (fun x hx => h x (List.mem_cons_of_mem r hx))
    simp only [List.countP_cons, List.length_cons]
    rcases h r (List.mem_cons_self r t) with h1 | h1 | h1 <;> rw [h1] <;> simp <;> omega

/-! The claims. -/

/-- C1: For every snapshot whose lowerText contains at least one substring
from takenIndicators, the classification of check_domain_availability's
non-error path returns the Taken verdict with status "Taken", regardless
of whether any availableIndicators substring is also present in lowerText:
the stage-1 scan short-circuits before any available-indicator check. -/
theorem c1_stage1_taken_short_circuit (snap : PageSnapshot) (fd : String)
    (h : anyIndicator taken_indicators snap.lowerText = true) :
    classify snap fd = ⟨some false, "Taken"⟩ := by
  unfold classify
  rw [if_pos h]

/-- Witness for C1: a page text holding both indicator families is
classified Taken. -/
theorem c1_witness :
    anyIndicator taken_indicators "this domain is taken add to cart" = true
      ∧ classify ⟨"this domain is taken add to cart", [], false⟩ "foo.com"
          = ⟨some false, "Taken"⟩ :=
  ⟨by decide,
   c1_stage1_taken_short_circuit ⟨"this domain is taken add to cart", [], false⟩ "foo.com"
     (by decide)⟩

/-- C2 (counterexample): an element whose inspected ancestor text holds
both "add to cart" and the taken indicator "is taken" is classified
Available by stage 2, so a taken-indicator match in an inspected text does
not take precedence there: the available-indicator check runs first. -/
theorem c2_counterexample :
    anyIndicator taken_indicators "add to cart is taken" = true
      ∧ classify ⟨"", [⟨some "add to cart is taken", ""⟩], false⟩ "foo.com"
          = ⟨some true, "Available"⟩ :=
  ⟨by decide, by decide⟩

/-- C2 (amended): taken-indicator precedence holds only for the stage-1
whole-page scan: when lowerText itself contains a taken indicator the
classification never returns Available.  In the texts inspected during
stage 2 the available-indicator check runs before the taken-indicator
check, so an inspected text containing both yields Available. -/
theorem c2_taken_precedence_scope (snap : PageSnapshot) (fd : String)
    (e : Element) (rest : List Element) :
    (anyIndicator taken_indicators snap.lowerText = true →
      (classify snap fd).is_available ≠ some true)
    ∧ (anyIndicator available_indicators (inspectedText e) = true →
      scanElements (e :: rest) = some (true, "Available")) := by
  constructor
  · intro h
    have hc : classify snap fd = ⟨some false, "Taken"⟩ := by
      unfold classify
      rw [if_pos h]
    rw [hc]
    exact fun hx => Bool.noConfusion (Option.some.injEq .. ▸ hx)
  · intro h
    unfold scanElements
    rw [if_pos h]

/-- Witness for C2's amended form. -/
theorem c2_witness :
    (classify ⟨"already taken", [], false⟩ "x").is_available ≠ some true
      ∧ scanElements [⟨some "add to cart is taken", ""⟩] = some (true, "Available") :=
  ⟨(c2_taken_precedence_scope ⟨"already taken", [], false⟩ "x"
      ⟨some "add to cart is taken", ""⟩ []).1 (by decide),
   (c2_taken_precedence_scope ⟨"already taken", [], false⟩ "x"
      ⟨some "add to cart is taken", ""⟩ []).2 (by decide)⟩

/-- C3 (counterexample): a snapshot whose lowerText carries no taken
indicator but carries "add to cart" and the full domain, and whose queried
elements include one whose inspected text carries a taken indicator, is
classified Taken by stage 2, not Available: the claim fails for snapshots
whose domainElements query returns matching elements. -/
theorem c3_counterexample :
    anyIndicator taken_indicators "add to cart foo.com" = false
      ∧ anyIndicator available_indicators "add to cart foo.com" = true
      ∧ inStr "foo.com" "add to cart foo.com" = true
      ∧ classify ⟨"add to cart foo.com", [⟨some "foo.com is taken", ""⟩], false⟩ "foo.com"
          = ⟨some false, "Taken"⟩ :=
  ⟨by decide, by decide, by decide, by decide⟩

/-- C3 (amended): for every snapshot whose lowerText contains no taken
indicator but contains an available indicator and the literal fullDomain,
the classification returns Available, provided additionally that every
queried element's inspected text is either taken-indicator-free or itself
carries an available indicator (so that stage 2 cannot classify Taken
first); this covers the empty-element case and the raising lookup. -/
theorem c3_whole_page_available (snap : PageSnapshot) (fd : String)
    (h1 : anyIndicator taken_indicators snap.lowerText = false)
    (h2 : anyIndicator available_indicators snap.lowerText = true)
    (h3 : inStr fd snap.lowerText = true)
    (h4 : ∀ e ∈ snap.domainElements,
        anyIndicator taken_indicators (inspectedText e) = false
          ∨ anyIndicator available_indicators (inspectedText e) = true) :
    classify snap fd = ⟨some true, "Available"⟩ := by
  unfold classify
  rw [if_neg (by rw [h1]; exact Bool.noConfusion)]
  cases hr : snap.lookupRaises with
  | true =>
    rw [if_pos rfl, if_pos h2]
  | false =>
    rw [if_neg Bool.false_ne_true]
    rcases scanElements_no_taken h4 with hs | hs
    · rw [hs, if_pos h2, if_pos h3]
    · rw [hs]

/-- Witness for C3's amended form: no queried element classifies, so the
whole-page fallback answers Available. -/
theorem c3_witness :
    classify ⟨"add to cart foo.com", [⟨some "foo.com result", "x"⟩], false⟩ "foo.com"
      = ⟨some true, "Available"⟩ :=
  c3_whole_page_available ⟨"add to cart foo.com", [⟨some "foo.com result", "x"⟩], false⟩
    "foo.com" (by decide) (by decide) (by decide)
    (by intro e he; rw [List.mem_singleton] at he; subst he; exact Or.inl (by decide))

/-- C4 (counterexample): a snapshot whose lowerText carries no indicator of
either family but whose queried elements include one whose inspected text
carries "buy now" is classified Available by stage 2, not Unknown: the
claim fails once element contents are unconstrained. -/
theorem c4_counterexample :
    anyIndicator taken_indicators "foo.com" = false
      ∧ anyIndicator available_indicators "foo.com" = false
      ∧ classify ⟨"foo.com", [⟨some "buy now", ""⟩], false⟩ "foo.com"
          = ⟨some true, "Available"⟩ :=
  ⟨by decide, by decide, by decide⟩

/-- C4 (amended): for every snapshot whose lowerText contains no substring
from either indicator family, the classification returns Unknown with
status "Unknown", provided additionally that no queried element's inspected
text contains an indicator of either family (stage 2 could otherwise
classify on element text alone); this covers the raising lookup as well. -/
theorem c4_unknown_default (snap : PageSnapshot) (fd : String)
    (h1 : anyIndicator taken_indicators snap.lowerText = false)
    (h2 : anyIndicator available_indicators snap.lowerText = false)
    (h3 : ∀ e ∈ snap.domainElements,
        anyIndicator available_indicators (inspectedText e) = false
          ∧ anyIndicator taken_indicators (inspectedText e) = false) :
    classify snap fd = ⟨none, "Unknown"⟩ := by
  unfold classify
  rw [if_neg (by rw [h1]; exact Bool.noConfusion)]
  cases hr : snap.lookupRaises with
  | true =>
    rw [if_pos rfl, if_neg (by rw [h2]; exact Bool.noConfusion),
      if_neg (by rw [h1]; exact Bool.noConfusion)]
  | false =>
    rw [if_neg Bool.false_ne_true, scanElements_none h3,
      if_neg (by rw [h2]; exact Bool.noConfusion),
      if_neg (by rw [stage3_taken_false fd h1]; exact Bool.noConfusion)]

/-- Witness for C4's amended form. -/
theorem c4_witness :
    classify ⟨"searching domains", [⟨none, "foo.com"⟩], false⟩ "foo.com"
      = ⟨none, "Unknown"⟩ :=
  c4_unknown_default ⟨"searching domains", [⟨none, "foo.com"⟩], false⟩ "foo.com"
    (by decide) (by decide)
    (by intro e he; rw [List.mem_singleton] at he; subst he; exact ⟨by decide, by decide⟩)

/-- C5 (counterexample): when the stage-2 lookup raises and lowerText
contains "add to cart" but not the full domain "foo.com", the handler
classifies Available even though the stage-3 whole-page fallback would
require the full domain to be present and would answer Unknown: the
exception handler is a different, coarser fallback. -/
theorem c5_counterexample :
    (⟨"add to cart", [], true⟩ : PageSnapshot).lookupRaises = true
      ∧ inStr "foo.com" "add to cart" = false
      ∧ classify ⟨"add to cart", [], true⟩ "foo.com" = ⟨some true, "Available"⟩ :=
  ⟨rfl, by decide, by decide⟩

/-- C5 (amended): when the stage-2 element/ancestor lookup raises, the
exception is caught locally and the handler of domain_checker.py lines
113-120 runs on the already-computed lowerText, but it is not the stage-3
fallback: it returns Available whenever lowerText contains any available
indicator (without requiring fullDomain to be present), else Taken
whenever lowerText contains any taken indicator (unreachable after
stage 1), else Unknown. -/
theorem c5_exception_handler (snap : PageSnapshot) (fd : String)
    (h : snap.lookupRaises = true) :
    classify snap fd =
      (if anyIndicator taken_indicators snap.lowerText then
        (⟨some false, "Taken"⟩ : ClassificationOutcome)
       else if anyIndicator available_indicators snap.lowerText then
        ⟨some true, "Available"⟩
       else ⟨none, "Unknown"⟩) := by
  by_cases h1 : anyIndicator taken_indicators snap.lowerText = true
  · simp [classify, h, h1]
  · rw [Bool.not_eq_true] at h1
    by_cases h2 : anyIndicator available_indicators snap.lowerText = true
    · simp [classify, h, h1, h2]
    · rw [Bool.not_eq_true] at h2
      simp [classify, h, h1, h2]

/-- Witness for C5's amended form: the handler answers Available with no
full domain on the page. -/
theorem c5_witness :
    classify ⟨"add to cart", [], true⟩ "foo.com" =
      (if anyIndicator taken_indicators "add to cart" then
        (⟨some false, "Taken"⟩ : ClassificationOutcome)
       else if anyIndicator available_indicators "add to cart" then
        ⟨some true, "Available"⟩
       else ⟨none, "Unknown"⟩) :=
  c5_exception_handler ⟨"add to cart", [], true⟩ "foo.com" rfl

/-- The app query loop distributes over the name list around any non-empty
name. -/
theorem appCheckLoop_append (fetch : String → Except String PageSnapshot)
    (exts : List String) (name : String) (hname : ¬ name = "") :
    ∀ n1 n2 : List String,
      appCheckLoop fetch (n1 ++ name :: n2) exts =
        appCheckLoop fetch n1 exts
          ++ exts.map (fun ext => check_domain_availability_app fetch name ext)
          ++ appCheckLoop fetch n2 exts := by
  intro n1
  induction n1 with
  | nil =>
    intro n2
    simp only [List.nil_append, appCheckLoop, if_neg hname]
  | cons a t ih =>
    intro n2
    simp only [List.cons_append, appCheckLoop, List.append_eq, ih, List.append_assoc]

/-- C6: when the fetch for a query raises, the per-query checker's outer
handler synthesizes a record with "Available" = "Unknown" and status
"Error: " followed by the failure message truncated to 50 characters
(app.py line 180), without consulting the classifier (the record is fixed
by the message alone), and the batch loop still processes every name
before and after the failing one, in order. -/
theorem c6_fetch_failure_degrades (fetch : String → Except String PageSnapshot)
    (n1 n2 exts : List String) (domain_name extension msg : String)
    (hname : ¬ domain_name = "")
    (hfail : fetch (domain_name ++ extension) = Except.error msg) :
    appCheckLoop fetch (n1 ++ domain_name :: n2) exts =
      appCheckLoop fetch n1 exts
        ++ exts.map (fun ext => check_domain_availability_app fetch domain_name ext)
        ++ appCheckLoop fetch n2 exts
    ∧ check_domain_availability_app fetch domain_name extension =
        ⟨domain_name, extension, domain_name ++ extension, "Unknown",
          "Error: " ++ msg.take 50⟩ := by
  refine ⟨appCheckLoop_append fetch exts domain_name hname n1 n2, ?_⟩
  simp only [check_domain_availability_app]
  rw [hfail]

/-- Witness for C6: a timing-out fetch for baz.dev. -/
theorem c6_witness :
    appCheckLoop fetchErrW ([] ++ "baz" :: []) [".dev"] =
      appCheckLoop fetchErrW [] [".dev"]
        ++ [".dev"].map (fun ext => check_domain_availability_app fetchErrW "baz" ext)
        ++ appCheckLoop fetchErrW [] [".dev"]
    ∧ check_domain_availability_app fetchErrW "baz" ".dev" =
        ⟨"baz", ".dev", "baz.dev", "Unknown",
          "Error: " ++ ("timeout: navigation failed").take 50⟩ :=
  c6_fetch_failure_degrades fetchErrW [] [] [".dev"] "baz" ".dev"
    "timeout: navigation failed" (by decide) rfl

/-- The query loop of check_domains equals the spec's cross-product over
the pre-normalized base names. -/
theorem checkDomainsLoop_eq_crossProduct (fetch : String → Except String PageSnapshot)
    (extensions : List String) : ∀ names : List String,
    checkDomainsLoop fetch names extensions =
      crossProductResults fetch (normalizedBaseNames names) extensions := by
  intro names
  induction names with
  | nil => rfl
  | cons name rest ih =>
    by_cases hn : name.trim.toLower = ""
    · simp only [checkDomainsLoop, normalizedBaseNames, List.map_cons, List.filter_cons, hn,
        if_pos hn, List.nil_append]
      simpa [normalizedBaseNames] using ih
    · have hb : (name.trim.toLower != "") = true := by
        simp [hn]
      simp only [checkDomainsLoop, normalizedBaseNames, List.map_cons, List.filter_cons, hb,
        if_neg hn, if_pos rfl, crossProductResults]
      simpa [normalizedBaseNames] using ih

/-- The cross-product yields one record per (name, extension) pair. -/
theorem crossProductResults_length (fetch : String → Except String PageSnapshot)
    (exts : List String) : ∀ ns : List String,
    (crossProductResults fetch ns exts).length = ns.length * exts.length := by
  intro ns
  induction ns with
  | nil => simp [crossProductResults]
  | cons n rest ih =>
    simp only [crossProductResults, List.length_append, List.length_map, ih,
      List.length_cons]
    ring

/-- C7: a run with a successfully constructed driver produces exactly the
domain-major, extension-minor cross-product of the trim+lowercase
normalized, blank-dropped base names with the extensions — n*m records in
order, none dropped, duplicated or reordered — for every fetch function,
hence regardless of how many individual fetches fail. -/
theorem c7_run_is_cross_product (fetch : String → Except String PageSnapshot)
    (domain_names extensions : List String) :
    check_domains fetch true domain_names extensions =
      crossProductResults fetch (normalizedBaseNames domain_names) extensions
    ∧ (check_domains fetch true domain_names extensions).length =
        (normalizedBaseNames domain_names).length * extensions.length := by
  have h : check_domains fetch true domain_names extensions =
      crossProductResults fetch (normalizedBaseNames domain_names) extensions :=
    checkDomainsLoop_eq_crossProduct fetch extensions domain_names
  exact ⟨h, by rw [h, crossProductResults_length]⟩

/-- C8: when the WebDriver session cannot be constructed, check_domains
returns before any query executes: the result set is empty (so the failure
is not folded into per-query Unknown records), and save_to_csv on that
empty result set writes no file. -/
theorem c8_setup_failure_aborts (fetch : String → Except String PageSnapshot)
    (domain_names extensions : List String) :
    check_domains fetch false domain_names extensions = []
      ∧ save_to_csv (check_domains fetch false domain_names extensions) = none :=
  ⟨rfl, rfl⟩

/-- C9: the Taken branch of the stage-3 whole-page fallback is unreachable
on the non-exception path: whenever lowerText contains "domain taken" or
"{fullDomain} is taken", it contains a taken-indicator substring
("domain taken" is itself an indicator, and "{fullDomain} is taken" has
"is taken" as a substring), so the stage-1 scan already fires and the
classification is the stage-1 Taken outcome. -/
theorem c9_stage3_taken_unreachable (snap : PageSnapshot) (fd : String)
    (h : (inStr "domain taken" snap.lowerText
        || inStr (fd ++ " is taken") snap.lowerText) = true) :
    anyIndicator taken_indicators snap.lowerText = true
      ∧ classify snap fd = ⟨some false, "Taken"⟩ := by
  have ha : anyIndicator taken_indicators snap.lowerText = true := by
    rcases Bool.or_eq_true_iff.mp h with h1 | h1
    · exact anyIndicator_iff.mpr ⟨"domain taken", by decide, h1⟩
    · exact anyIndicator_iff.mpr
        ⟨"is taken", by decide, inStr_trans (inStr_isTaken_append fd) h1⟩
  refine ⟨ha, ?_⟩
  unfold classify
  rw [if_pos ha]

/-- Witness for C9. -/
theorem c9_witness :
    anyIndicator taken_indicators "sorry, foo.com is taken" = true
      ∧ classify ⟨"sorry, foo.com is taken", [], false⟩ "foo.com"
          = ⟨some false, "Taken"⟩ :=
  c9_stage3_taken_unreachable ⟨"sorry, foo.com is taken", [], false⟩ "foo.com" (by decide)

/-- C10: every record produced by a run carries "Available" equal to one
of "Yes", "No", "Unknown"; the three summary counts therefore partition
the result set (they sum to its length); and on the non-error path the
"Available" field corresponds exactly to the "Status" field ("Yes" iff
"Available", "No" iff "Taken", "Unknown" iff "Unknown"). -/
theorem c10_available_partitions (fetch : String → Except String PageSnapshot)
    (domain_names extensions : List String) :
    (∀ r ∈ check_domains fetch true domain_names extensions,
        r.available = "Yes" ∨ r.available = "No" ∨ r.available = "Unknown")
    ∧ ((check_domains fetch true domain_names extensions).countP
          (fun r => r.available == "Yes")
        + (check_domains fetch true domain_names extensions).countP
          (fun r => r.available == "No")
        + (check_domains fetch true domain_names extensions).countP
          (fun r => r.available == "Unknown")
        = (check_domains fetch true domain_names extensions).length)
    ∧ (∀ (domain_name extension : String) (snap : PageSnapshot),
        fetch (domain_name ++ extension) = Except.ok snap →
        (((check_domain_availability fetch domain_name extension).available = "Yes"
            ↔ (check_domain_availability fetch domain_name extension).status = "Available")
          ∧ ((check_domain_availability fetch domain_name extension).available = "No"
            ↔ (check_domain_availability fetch domain_name extension).status = "Taken")
          ∧ ((check_domain_availability fetch domain_name extension).available = "Unknown"
            ↔ (check_domain_availability fetch domain_name extension).status = "Unknown"))) := by
  have hmem : ∀ r ∈ check_domains fetch true domain_names extensions,
      r.available = "Yes" ∨ r.available = "No" ∨ r.available = "Unknown" := by
    intro r hr
    rcases checkDomainsLoop_mem fetch domain_names extensions r hr with ⟨dn, ext, rfl⟩
    exact record_available_cases fetch dn ext
  refine ⟨hmem, count_partition _ hmem, ?_⟩
  intro domain_name extension snap hf
  have hrec : check_domain_availability fetch domain_name extension =
      ⟨domain_name, extension, domain_name ++ extension,
        availableField (classify snap (domain_name ++ extension)).is_available,
        (classify snap (domain_name ++ extension)).status⟩ := by
    simp only [check_domain_availability]
    rw [hf]
  rcases classify_cases snap (domain_name ++ extension) with h | h | h <;>
    rw [hrec, h] <;> exact ⟨by simp [availableField], by simp [availableField], by simp [availableField]⟩

/-- Witness for C10: a run whose single fetch succeeds with a page that
classifies Available. -/
theorem c10_witness :
    ((check_domains fetchOkW true ["foo"] [".com"]).countP
          (fun r => r.available == "Yes")
        + (check_domains fetchOkW true ["foo"] [".com"]).countP
          (fun r => r.available == "No")
        + (check_domains fetchOkW true ["foo"] [".com"]).countP
          (fun r => r.available == "Unknown")
        = (check_domains fetchOkW true ["foo"] [".com"]).length)
    ∧ ((check_domain_availability fetchOkW "foo" ".com").available = "Yes"
        ↔ (check_domain_availability fetchOkW "foo" ".com").status = "Available") :=
  ⟨(c10_available_partitions fetchOkW ["foo"] [".com"]).2.1,
   ((c10_available_partitions fetchOkW ["foo"] [".com"]).2.2 "foo" ".com" snapOkW rfl).1⟩

end GodaddyChecker
